import Mathlib

set_option autoImplicit false

/-!
Verification of the Pyneapple DWI fitting engine.

This file gives a shallow embedding of the fitting-engine core of the
repository (fit dispatch, pixel-argument generation, NNLS / IVIM result
evaluation, regularised-basis construction, parameter persistence) and
proves or refutes the specification claims about it.

Conventions of the embedding:
* machine floats are modelled as exact rationals (`ℚ`);
* a Python function that can raise is modelled with `Option` (`none` =
  an exception propagates to the caller);
* external library solvers (`scipy.optimize.nnls`, `scipy.optimize.curve_fit`)
  are taken as uninterpreted function parameters whose `none` result models
  a raised exception / non-convergence, since their numerics are outside
  the repository;
* `numpy` array helpers used by the source (`nonzero`, `squeeze`,
  `setdiff1d`, boolean masking, `scipy.signal.find_peaks`) are embedded
  following their documented semantics.
-/

namespace Pyneapple

/-- A voxel coordinate `(i, j, k)` into the 4-D grid. -/
abbrev Coord := Nat × Nat × Nat

/-- A per-voxel signal (one float per b-value / decay index). -/
abbrev Sig := List ℚ

/-! ### Fit dispatcher

`src/src/fit/fit.py` `fit` and `src/src/multithreading.py` `multithreader`.
`pool.starmap` applies the function to each argument tuple and returns the
results in input order; it is embedded as `List.map`.
-/

/-- `multiprocessing.Pool.starmap`: one result per argument, input order. -/
def starmap {α β : Type} (f : α → β) (l : List α) : List β :=
  l.map f

/-- `src/src/multithreading.py::multithreader`.
`if n_pools:` is Python truthiness: `None` and `0` take the sequential
`for element in arg_list: results.append(func(*element))` branch, any
positive pool count calls `starmap_handler` (which uses `Pool.starmap`). -/
def multithreader {α β : Type} (func : α → β) (arg_list : List α)
    (n_pools : Option Nat) : List β :=
  match n_pools with
  | some (Nat.succ _) => starmap func arg_list
  | _ => arg_list.map (fun element => func element)

/-- `src/src/fit/fit.py::fit`.
With `multi_threading=True` the body only assigns `results` inside
`if n_pools != 0:`; for `n_pools = 0` the final `return results` raises
`UnboundLocalError`, modelled as `none`.  With `multi_threading=False`
the sequential loop runs regardless of `n_pools`. -/
def fitDispatch {α β : Type} (fit_function : α → β) (element_args : List α)
    (n_pools : Nat) (multi_threading : Bool) : Option (List β) :=
  if multi_threading then
    if n_pools ≠ 0 then some (starmap fit_function element_args)
    else none
  else
    some (element_args.map (fun element => fit_function element))

/-- C1 counterexample input: a single fit argument. -/
def c1Args : List (Coord × Sig) := [((0, 0, 0), [1, 2])]

/-! ### Fit-model functions (`src/fit.py::FitModel`)

A basis matrix is a list of rows; `shape[1]` is the length of the first
row, the width `np.zeros(basis.shape[1])` uses on the failure path.
The external solvers are uninterpreted parameters: `none` models the
solver raising (non-convergence / singular basis). -/

/-- A numpy 2-D float array as a list of rows. -/
abbrev Mat := List (List ℚ)

/-- `basis.shape[1]` for a list-of-rows matrix. -/
def npShape1 (m : Mat) : Nat := (m.headD []).length

/-- `FitModel.NNLS`: `try: fit, _ = nnls(basis, signal, maxiter=max_iter)`
`except: fit = np.zeros(basis.shape[1])`; always `return idx, fit`. -/
def FitModel.NNLS (nnls : Mat → Sig → Nat → Option (List ℚ))
    (basis : Mat) (max_iter : Nat) (idx : Coord) (s : Sig) :
    Coord × List ℚ :=
  match nnls basis s max_iter with
  | some fit => (idx, fit)
  | none => (idx, List.replicate (npShape1 basis) 0)

/-- `FitModel.NNLS_reg`: textually identical error containment to `NNLS`. -/
def FitModel.NNLS_reg (nnls : Mat → Sig → Nat → Option (List ℚ))
    (basis : Mat) (max_iter : Nat) (idx : Coord) (s : Sig) :
    Coord × List ℚ :=
  match nnls basis s max_iter with
  | some fit => (idx, fit)
  | none => (idx, List.replicate (npShape1 basis) 0)

/-- `FitModel.NNLS_reg_CV`: `try: fit, _, _ = NNLSregCV(basis, signal, tol)`
`except: fit = np.zeros(basis.shape[1])`. -/
def FitModel.NNLS_reg_CV (nnlsRegCV : Mat → Sig → ℚ → Option (List ℚ))
    (basis : Mat) (tol : ℚ) (idx : Coord) (s : Sig) :
    Coord × List ℚ :=
  match nnlsRegCV basis s tol with
  | some fit => (idx, fit)
  | none => (idx, List.replicate (npShape1 basis) 0)

/-- `FitModel.mono`: `fit, _ = curve_fit(...)` with **no** try/except —
a solver exception propagates to the caller (`none`). -/
def FitModel.mono (curve_fit : Sig → Option (List ℚ))
    (idx : Coord) (s : Sig) : Option (Coord × List ℚ) :=
  (curve_fit s).map (fun fit => (idx, fit))

/-- `FitModel.mono_T1`: same structure as `mono`, no try/except. -/
def FitModel.mono_T1 (curve_fit : Sig → Option (List ℚ))
    (idx : Coord) (s : Sig) : Option (Coord × List ℚ) :=
  (curve_fit s).map (fun fit => (idx, fit))

/-- `FitModel.multi_exp`: same structure as `mono`, no try/except. -/
def FitModel.multi_exp (curve_fit : Sig → Option (List ℚ))
    (idx : Coord) (s : Sig) : Option (Coord × List ℚ) :=
  (curve_fit s).map (fun fit => (idx, fit))

/-! ### Pixel-argument generation
(`src/src/fit/parameters.py::Parameters.get_pixel_args`) -/

/-- A segmentation mask array: its numpy shape and its voxel values
(non-negative integer labels, read at in-range indices only). -/
structure SegArray where
  dims : List Nat
  val : Nat → Nat → Nat → Nat

/-- `np.squeeze(seg, axis=3)`: succeeds only when axis 3 exists and has
extent 1.  A 3-D mask raises `AxisError` (axis 3 out of bounds); a 4-D
mask with trailing extent ≠ 1 raises `ValueError`.  Both are `none`. -/
def npSqueezeAxis3 (seg : SegArray) :
    Option (Nat × Nat × Nat × (Nat → Nat → Nat → Nat)) :=
  match seg.dims with
  | [x, y, z, 1] => some (x, y, z, seg.val)
  | _ => none

/-- All coordinates of an `(X, Y, Z)` array in row-major (C) order. -/
def allCoords (X Y Z : Nat) : List Coord :=
  List.range X ×ˢ (List.range Y ×ˢ List.range Z)

/-- `np.nonzero` on a 3-D array: the coordinates of all nonzero entries
in row-major (C) order. -/
def npNonzero3 (X Y Z : Nat) (v : Nat → Nat → Nat → Nat) : List Coord :=
  (allCoords X Y Z).filter (fun c => v c.1 c.2.1 c.2.2 != 0)

/-- `Parameters.get_pixel_args(img, seg)`: zips the nonzero coordinates of
`np.squeeze(seg, axis=3)` with the signals `img[i, j, k, :]` (the grid's
decay axis has length `B`). -/
def get_pixel_args (img : Coord → Nat → ℚ) (B : Nat) (seg : SegArray) :
    Option (List (Coord × Sig)) :=
  (npSqueezeAxis3 seg).map (fun sq =>
    (npNonzero3 sq.1 sq.2.1 sq.2.2.1 sq.2.2.2).map
      (fun c => (c, (List.range B).map (img c))))

/-- C3 counterexample input: an all-ones 3-D mask of shape `(1, 1, 1)`. -/
def c3Seg3d : SegArray := ⟨[1, 1, 1], fun _ _ _ => 1⟩

/-! ### Peak detection and fraction extraction
(`scipy.signal.find_peaks` and
`src/src/fit/parameters.py::NNLSParams.eval_fitting_results`,
`NNLSregParams.eval_fitting_results`) -/

/-- Read a spectrum sample (out-of-range reads never occur on the traced
index ranges; the default is irrelevant). -/
def getQ (x : List ℚ) (i : Nat) : ℚ := x.getD i 0

/-- The plateau scan of scipy's `_local_maxima_1d`: starting at `i_ahead`,
advance while inside `[0, len - 1)` and the sample still equals the
candidate peak value `v`.  Fuelled recursion; `x.length` fuel is always
enough for the real trace. -/
def scanPlateau (x : List ℚ) (v : ℚ) : Nat → Nat → Nat
  | 0, i_ahead => i_ahead
  | fuel + 1, i_ahead =>
    if i_ahead < x.length - 1 ∧ getQ x i_ahead = v then
      scanPlateau x v fuel (i_ahead + 1)
    else i_ahead

/-- The main scan of scipy's `_local_maxima_1d`: a sample strictly above
its left neighbour whose following plateau ends in a strict drop is a
local maximum, reported at the plateau midpoint; scanning resumes after
the plateau. -/
def localMaximaAux (x : List ℚ) : Nat → Nat → List Nat
  | 0, _ => []
  | fuel + 1, i =>
    if i < x.length - 1 then
      if getQ x (i - 1) < getQ x i then
        if getQ x (scanPlateau x (getQ x i) x.length (i + 1)) < getQ x i then
          ((i + (scanPlateau x (getQ x i) x.length (i + 1) - 1)) / 2) ::
            localMaximaAux x fuel
              (max (scanPlateau x (getQ x i) x.length (i + 1)) (i + 1))
        else localMaximaAux x fuel (i + 1)
      else localMaximaAux x fuel (i + 1)
    else []

/-- `scipy.signal.find_peaks(x, height=h)`: local maxima (scan starts at
index 1), keeping peaks whose height is at least `h`. -/
def find_peaks (x : List ℚ) (height : ℚ) : List Nat :=
  (localMaximaAux x x.length 1).filter (fun i => height ≤ getQ x i)

/-- Per-voxel fraction extraction of
`NNLSParams.eval_fitting_results`: peak heights at threshold `0.1`,
normalised by their sum (`np.divide(f_values, sum(f_values))`). -/
def NNLSParams.eval_f (spectrum : List ℚ) : List ℚ :=
  let idx := find_peaks spectrum (1 / 10)
  let f_values := idx.map (getQ spectrum)
  f_values.map (fun f => f / f_values.sum)

/-- Per-voxel fraction extraction of
`NNLSregParams.eval_fitting_results`: peaks at threshold `0`, each
weighted by its full-width-half-maximum from `scipy.signal.peak_widths`
(taken as an input list here, since its interpolation happens outside the
repository) times the Gaussian-area constant
`sqrt(2*pi) / (2*sqrt(2*ln 2))` (an irrational constant, taken as the
positive parameter `gaussConst`), then normalised by the sum. -/
def NNLSregParams.eval_f (gaussConst : ℚ) (spectrum : List ℚ)
    (fwhms : List ℚ) : List ℚ :=
  let idx := find_peaks spectrum 0
  let f_peaks := idx.map (getQ spectrum)
  let f_values := (f_peaks.zip fwhms).map (fun pw => pw.1 * pw.2 * gaussConst)
  f_values.map (fun f => f / f_values.sum)

/-! ### AUC-by-regime aggregation
(`src/src/fit/parameters.py::NNLSParams.apply_AUC_to_results`) -/

/-- Insert a value into an ascending list, keeping it ascending. -/
def insertAsc (x : ℚ) : List ℚ → List ℚ
  | [] => [x]
  | y :: t => if x ≤ y then x :: y :: t else y :: insertAsc x t

/-- Sort ascending. -/
def sortAsc (l : List ℚ) : List ℚ := l.foldr insertAsc []

/-- `np.setdiff1d(a, b)`: the **sorted unique** values of `a` that are
not in `b` (numpy sorts and deduplicates; it does not preserve `a`'s
order or pairing with parallel arrays). -/
def np_setdiff1d (a b : List ℚ) : List ℚ :=
  (sortAsc (a.filter (fun x => decide (x ∉ b)))).dedup

/-- numpy boolean-mask selection `vals[mask]` for a same-length mask. -/
def maskSelect (vals : List ℚ) (mask : List Bool) : List ℚ :=
  ((vals.zip mask).filter (fun p => p.2)).map (fun p => p.1)

/-- `np.dot` on equal-length 1-D arrays. -/
def dotQ (a b : List ℚ) : ℚ := ((a.zip b).map (fun p => p.1 * p.2)).sum

/-- The fixed regime boundaries `[0.003, 0.05, 0.3]`. -/
def regimeBoundaries : List ℚ := [3 / 1000, 1 / 20, 3 / 10]

/-- One iteration of the AUC loop at boundary `rb`; the state is
`(d_values, f_values, d_AUC so far, f_AUC so far)`.  `peaks_in_regime =
d_values < rb`; when no peak is inside, `continue` leaves the zero
entries; otherwise the regime's summed fraction and fraction-weighted
coefficient are recorded and the consumed peaks are removed with
`np.setdiff1d` on both parallel arrays. -/
def aucStep (st : List ℚ × List ℚ × List ℚ × List ℚ) (rb : ℚ) :
    List ℚ × List ℚ × List ℚ × List ℚ :=
  let d_values := st.1
  let f_values := st.2.1
  let peaks_in_regime := d_values.map (fun d => decide (d < rb))
  if peaks_in_regime.all (fun m => !m) then
    (d_values, f_values, st.2.2.1 ++ [0], st.2.2.2 ++ [0])
  else
    let d_regime := maskSelect d_values peaks_in_regime
    let f_regime := maskSelect f_values peaks_in_regime
    (np_setdiff1d d_values d_regime, np_setdiff1d f_values f_regime,
      st.2.2.1 ++ [dotQ d_regime f_regime / f_regime.sum],
      st.2.2.2 ++ [f_regime.sum])

/-- `NNLSParams.apply_AUC_to_results` for one voxel: fold the regime
boundaries low-to-high over the voxel's `(d, f)` peak lists; returns
`(d_AUC, f_AUC)` (entries stay zero for empty regimes). -/
def apply_AUC_to_results (d f : List ℚ) : List ℚ × List ℚ :=
  ((regimeBoundaries.foldl aucStep (d, f, [], [])).2.2.1,
   (regimeBoundaries.foldl aucStep (d, f, [], [])).2.2.2)

/-! ### Regularised-basis penalty blocks
(`src/src/fit/parameters.py::NNLSregParams.get_basis` and
`src/fit.py::NNLSregParams.get_basis`).  Only the appended penalty block
is embedded: the exponential part `exp(-kron(b_values, bins))` is
transcendental and is not at issue in any claim. -/

/-- Entry `(i, j)` of `scipy.sparse.diags(values, offsets, (n, n))`. -/
def diagsEntry (ds : List (ℤ × ℚ)) (i j : Nat) : ℚ :=
  (ds.map (fun p => if (j : ℤ) = (i : ℤ) + p.1 then p.2 else 0)).sum

/-- `scipy.sparse.diags(values, offsets, (n, n)).toarray()`. -/
def diagsMat (ds : List (ℤ × ℚ)) (n : Nat) : Mat :=
  (List.range n).map (fun i => (List.range n).map (fun j => diagsEntry ds i j))

/-- Elementwise `array * mu`. -/
def matScale (m : Mat) (mu : ℚ) : Mat :=
  m.map (fun row => row.map (fun x => x * mu))

/-- Row `i` of a list-of-rows matrix. -/
def matRow (m : Mat) (i : Nat) : List ℚ := m.getD i []

/-- Penalty block of `src/src/fit/parameters.py::NNLSregParams.get_basis`:
`reg_order` 1, 2 and 3 build banded difference matrices times `mu`; every
other order — including the constructor default 0 — falls into the
`else: raise NotImplemented(...)` branch (`none`). -/
def NNLSregParams.penalty_params (reg_order : ℤ) (n_bins : Nat) (mu : ℚ) :
    Option Mat :=
  if reg_order = 1 then
    some (matScale (diagsMat [(0, -1), (1, 1)] n_bins) mu)
  else if reg_order = 2 then
    some (matScale (diagsMat [(-1, 1), (0, -2), (1, 1)] n_bins) mu)
  else if reg_order = 3 then
    some (matScale (diagsMat [(-2, 1), (-1, 2), (0, -6), (1, 2), (2, 1)] n_bins) mu)
  else none

/-- Penalty block of the older `src/fit.py::NNLSregParams.get_basis`:
orders 0-3 (0 = identity), scaled by `mu` at concatenation
(`reg * self.mu`); any other order leaves `reg` unbound (`NameError`,
modelled `none`). -/
def NNLSregParams.penalty_fitpy (reg_order : ℤ) (n_bins : Nat) (mu : ℚ) :
    Option Mat :=
  if reg_order = 0 then
    some (matScale (diagsMat [(0, 1)] n_bins) mu)
  else if reg_order = 1 then
    some (matScale (diagsMat [(0, -1), (1, 1)] n_bins) mu)
  else if reg_order = 2 then
    some (matScale (diagsMat [(-1, 1), (0, -2), (1, 1)] n_bins) mu)
  else if reg_order = 3 then
    some (matScale (diagsMat [(-2, 1), (-1, 2), (0, -6), (1, 2), (2, 1)] n_bins) mu)
  else none

/-! ### NNLSregParams construction
(`src/src/fit/parameters.py::NNLSregParams.__init__`) -/

/-- The state stored by `NNLSregParams.__init__(reg_order, mu)`: it calls
`super().__init__(max_iter=200)` (which leaves `n_bins = 250`) and then
stores `reg_order` and `mu` **without any validation**. -/
structure NNLSregParamsState where
  reg_order : ℤ
  mu : ℚ
  n_bins : Nat
  max_iter : Nat

/-- `NNLSregParams.__init__`: always succeeds, whatever `reg_order` is. -/
def NNLSregParams.mk_init (reg_order : ℤ) (mu : ℚ) : NNLSregParamsState :=
  ⟨reg_order, mu, 250, 200⟩

/-- `Parameters.load_from_json` applied to an `NNLSregParams` config:
constructs the default instance (`reg_order=0, mu=0.02`) and `setattr`s
`reg_order` from the file, again without validation. -/
def NNLSregParams.load_set_reg_order (o : ℤ) : NNLSregParamsState :=
  { NNLSregParams.mk_init 0 (1 / 50) with reg_order := o }

/-- `NNLSregParams.get_basis`'s penalty computation on a state: this is
where an unsupported order first raises, at fit-function construction
time. -/
def NNLSregParamsState.get_basis_penalty (st : NNLSregParamsState) :
    Option Mat :=
  NNLSregParams.penalty_params st.reg_order st.n_bins st.mu

/-! ### Configuration loading
(`src/src/fit/parameters.py::Parameters.load_from_json` and
`src/src/pyneapple/fitting/fitdata.py::FitData._get_model` /
`_get_params_class`) -/

/-- A JSON value as far as the loaders inspect it. -/
inductive PyValue
  | str (s : String)
  | num (q : ℚ)
  | arr (l : List ℚ)
  | null
deriving DecidableEq

/-- A parsed JSON configuration document. -/
abbrev ConfigDict := List (String × PyValue)

/-- `data_dict[key]` as an `Option`. -/
def lookupKey (d : ConfigDict) (k : String) : Option PyValue :=
  (d.find? (fun p => p.1 == k)).map (fun p => p.2)

/-- What a loader call does: constructs an instance of the named
parameter class, constructs and returns some *other* (non-parameter)
object, returns `None`, or raises. -/
inductive LoadOutcome
  | ok (className : String)
  | okOther (globalName : String)
  | returnedNone
  | raised (msg : String)
deriving DecidableEq

/-- The constructible parameter-class names defined in
`src/src/fit/parameters.py` (the tags for which
`globals()[data_dict["Class"]]()` builds a parameter instance). -/
def knownParamClasses : List String :=
  ["Parameters", "NNLSParams", "NNLSregParams", "NNLSregCVParams",
   "IVIMParams"]

/-- How `globals()[name]()` behaves for one entry of the module
namespace of `parameters.py`. -/
inductive GlobalsEntry
  /-- A constructible parameter class: the zero-argument call builds a
  parameter instance. -/
  | paramClass
  /-- A zero-argument-callable global that is **not** a parameter class:
  the call returns an unrelated object (a `Results`, a `Model`, a `Nii`,
  a `NiiSeg`, an `ABC` instance, a `Path`). -/
  | otherCallable
  /-- A global whose zero-argument call raises `TypeError`: imported
  modules (`np`, `math`, `signal`, `json`, `pd`, `plt`, `os`), functions
  needing arguments (`diags`, `partial`, `Callable`, `abstractmethod`),
  the abstract class `Params`, and the module dunder entries. -/
  | notCallableZeroArg
deriving DecidableEq

/-- The `globals()` namespace of `src/src/fit/parameters.py`: the module
dunders, the imports of lines 1-16, and the classes the module
defines. -/
def parametersGlobals : List (String × GlobalsEntry) :=
  [("__name__", GlobalsEntry.notCallableZeroArg),
   ("__doc__", GlobalsEntry.notCallableZeroArg),
   ("__package__", GlobalsEntry.notCallableZeroArg),
   ("__loader__", GlobalsEntry.notCallableZeroArg),
   ("__spec__", GlobalsEntry.notCallableZeroArg),
   ("__file__", GlobalsEntry.notCallableZeroArg),
   ("__builtins__", GlobalsEntry.notCallableZeroArg),
   ("os", GlobalsEntry.notCallableZeroArg),
   ("np", GlobalsEntry.notCallableZeroArg),
   ("math", GlobalsEntry.notCallableZeroArg),
   ("signal", GlobalsEntry.notCallableZeroArg),
   ("diags", GlobalsEntry.notCallableZeroArg),
   ("partial", GlobalsEntry.notCallableZeroArg),
   ("Callable", GlobalsEntry.notCallableZeroArg),
   ("json", GlobalsEntry.notCallableZeroArg),
   ("Path", GlobalsEntry.otherCallable),
   ("ABC", GlobalsEntry.otherCallable),
   ("abstractmethod", GlobalsEntry.notCallableZeroArg),
   ("pd", GlobalsEntry.notCallableZeroArg),
   ("plt", GlobalsEntry.notCallableZeroArg),
   ("Model", GlobalsEntry.otherCallable),
   ("Nii", GlobalsEntry.otherCallable),
   ("NiiSeg", GlobalsEntry.otherCallable),
   ("Results", GlobalsEntry.otherCallable),
   ("Params", GlobalsEntry.notCallableZeroArg),
   ("Parameters", GlobalsEntry.paramClass),
   ("NNLSParams", GlobalsEntry.paramClass),
   ("NNLSregParams", GlobalsEntry.paramClass),
   ("NNLSregCVParams", GlobalsEntry.paramClass),
   ("IVIMParams", GlobalsEntry.paramClass)]

/-- `globals()[k]` as an `Option`. -/
def lookupGlobal (g : List (String × GlobalsEntry)) (k : String) :
    Option GlobalsEntry :=
  (g.find? (fun p => p.1 == k)).map (fun p => p.2)

/-- `Parameters.load_from_json` over a module namespace `g`:
`data_dict["Class"]` raises `KeyError` when the tag is absent; a tag
present in `globals()` is **called**, `globals()[tag]()` — building a
parameter instance when it names a parameter class, returning an
unrelated constructed object when it names another zero-arg callable
(e.g. `Results`), and raising `TypeError` when it names a module,
an argument-requiring function or the abstract `Params`; a tag absent
from `globals()` (any non-string tag included, since the dict has string
keys) prints `"Error: Wrong Class Header!"` and plain-`return`s
`None`. -/
def Parameters.load_from_json_outcome (g : List (String × GlobalsEntry))
    (d : ConfigDict) : LoadOutcome :=
  match lookupKey d "Class" with
  | none => LoadOutcome.raised "KeyError"
  | some (PyValue.str c) =>
    match lookupGlobal g c with
    | some GlobalsEntry.paramClass => LoadOutcome.ok c
    | some GlobalsEntry.otherCallable => LoadOutcome.okOther c
    | some GlobalsEntry.notCallableZeroArg => LoadOutcome.raised "TypeError"
    | none => LoadOutcome.returnedNone
  | some _ => LoadOutcome.returnedNone

/-- `FitData._get_params_class`: scans the union's classes for a
`__name__` match and raises `ValueError` when none matches. -/
def FitData.get_params_class (classes : List String) (name : String) :
    LoadOutcome :=
  if name ∈ classes then LoadOutcome.ok name
  else LoadOutcome.raised "Error: Invalid Class identifier!"

/-- `FitData._get_model`: raises `ValueError` when the `Class` key is
missing, otherwise defers to `_get_params_class` (a non-string tag never
equals a class `__name__`, hence also raises there). -/
def FitData.get_model (classes : List String) (d : ConfigDict) :
    LoadOutcome :=
  match lookupKey d "Class" with
  | none => LoadOutcome.raised "Error: Missing Class identifier!"
  | some (PyValue.str c) => FitData.get_params_class classes c
  | some _ => LoadOutcome.raised "Error: Invalid Class identifier!"

/-! ### Parameter persistence round-trip
(`src/src/fit/parameters.py::Parameters.save_to_json` /
`load_from_json`) -/

/-- The `boundaries` dict of the base `Parameters` class. -/
structure BoundariesDict where
  lb : List ℚ
  ub : List ℚ
  x0 : List ℚ
  n_bins : Nat
  d_range : List ℚ
deriving DecidableEq

/-- `Parameters.__init__`'s boundaries:
`lb=ub=x0=[]`, `n_bins=250`, `d_range=[1e-4, 2e-1]`. -/
def defaultBoundaries : BoundariesDict :=
  ⟨[], [], [], 250, [1 / 10000, 1 / 5]⟩

/-- The non-callable state of a base `Parameters` instance.  `b_values`
is kept in squeezed 1-D form (the property setter re-expands it, and
squeezing on save plus re-setting on load round-trips the values). -/
structure ParamsBase where
  b_values : List ℚ
  max_iter : Option ℤ
  n_pools : Option ℤ
  fit_area : String
  boundaries : BoundariesDict
deriving DecidableEq

/-- The default b-value vector of `Parameters.__init__`. -/
def default_b_values : List ℚ :=
  [0, 5, 10, 20, 30, 40, 50, 75, 100, 150, 200, 250, 300, 400, 525, 750]

/-- `Parameters()` with all defaults. -/
def Parameters.mk_default : ParamsBase :=
  ⟨default_b_values, none, some 4, "Pixel", defaultBoundaries⟩

/-- What `save_to_json` writes for a base instance: the `Class` tag and
every non-callable, non-private, non-partial attribute — which for the
base class is `b_values`, `fit_area`, `max_iter` and `n_pools`; the
`boundaries` attribute is explicitly `continue`d over and never saved. -/
structure SavedConfig where
  Class : String
  b_values : List ℚ
  max_iter : Option ℤ
  n_pools : Option ℤ
  fit_area : String
deriving DecidableEq

/-- `Parameters.save_to_json`. -/
def Parameters.save_to_json (p : ParamsBase) : SavedConfig :=
  ⟨"Parameters", p.b_values, p.max_iter, p.n_pools, p.fit_area⟩

/-- `Parameters.load_from_json` on a saved base-class config: constructs
a fresh default instance for the tag and `setattr`s each saved key onto
it; `boundaries` has no saved key, so the fresh default survives. -/
def Parameters.load_from_saved (c : SavedConfig) : Option ParamsBase :=
  if c.Class ∈ knownParamClasses then
    some { Parameters.mk_default with
      b_values := c.b_values
      max_iter := c.max_iter
      n_pools := c.n_pools
      fit_area := c.fit_area }
  else none

/-- C9 counterexample input: a base instance whose `n_bins` boundary was
changed from the default 250 to 300. -/
def c9Params : ParamsBase :=
  { Parameters.mk_default with
    boundaries := { defaultBoundaries with n_bins := 300 } }

/-! ### IVIM result evaluation
(`src/src/fit/parameters.py::IVIMParams.eval_fitting_results`) -/

/-- The per-voxel fraction assembly of `IVIMParams.eval_fitting_results`:
`f_new = np.zeros(n)`, `f_new[:n-1] = raw[n:-1]`,
`f_new[-1] = 1 - np.sum(raw[n:-1])`.  The raw vector layout is
`[d_1..d_n, f_1..f_(n-1), S0]`, so the slice assignment needs
`len(raw) = 2 n`. -/
def IVIMParams.eval_f (n_components : Nat) (raw : List ℚ) : List ℚ :=
  (raw.drop n_components).dropLast
    ++ [1 - ((raw.drop n_components).dropLast).sum]

/- The Batteries rational arithmetic is `@[irreducible]`; concrete
evaluation by `decide` needs it unfolded. -/
attribute [local semireducible] Rat.add Rat.mul Rat.inv Rat.sub

/-- **C1** (counterexample).  The claim says the fit dispatcher returns
exactly one result per input argument for every worker count 0, 1 or N.
With its default `multi_threading=True` and worker count `n_pools = 0`,
`src/src/fit/fit.py::fit` assigns `results` on no path and raises
`UnboundLocalError` instead of returning any results: on a one-element
argument stream no result list is produced at all. -/
theorem C1_dispatcher_counterexample :
    fitDispatch (fun p => p) c1Args 0 true = none ∧
      c1Args.length = 1 := by
  constructor
  · rfl
  · rfl

/-- **C1** (amended).  For every coordinate-preserving fit function:
`multithreader` returns exactly one result per input argument with the
returned coordinate list equal to the input coordinate list, for every
worker count (`None`, 0, 1 or N); the `fit` dispatcher does the same
whenever `multi_threading` is false or `n_pools ≠ 0`, but with
`multi_threading` true and `n_pools = 0` it raises instead of returning. -/
theorem C1_dispatch_preserves_coords {R : Type}
    (g : Coord → Sig → R) (args : List (Coord × Sig))
    (n_opt : Option Nat) (n_pools : Nat) (multi_threading : Bool)
    (h : multi_threading = false ∨ n_pools ≠ 0) :
    (multithreader (fun p => (p.1, g p.1 p.2)) args n_opt).map Prod.fst
        = args.map Prod.fst ∧
      (multithreader (fun p => (p.1, g p.1 p.2)) args n_opt).length
        = args.length ∧
      ∃ res, fitDispatch (fun p => (p.1, g p.1 p.2)) args n_pools
          multi_threading = some res ∧
        res.map Prod.fst = args.map Prod.fst ∧ res.length = args.length := by
  refine ⟨?_, ?_, ?_⟩
  · cases n_opt with
    | none => simp [multithreader]
    | some n =>
      cases n with
      | zero => simp [multithreader]
      | succ n => simp [multithreader, starmap]
  · cases n_opt with
    | none => simp [multithreader]
    | some n =>
      cases n with
      | zero => simp [multithreader]
      | succ n => simp [multithreader, starmap]
  · cases multi_threading with
    | false =>
      exact ⟨args.map (fun p => (p.1, g p.1 p.2)), by
        simp [fitDispatch], by simp, by simp⟩
    | true =>
      have hn : n_pools ≠ 0 := by
        rcases h with h | h
        · exact absurd h (by simp)
        · exact h
      exact ⟨args.map (fun p => (p.1, g p.1 p.2)), by
        simp [fitDispatch, starmap, hn], by simp, by simp⟩

/-- **C1** witness: the amended theorem applied to a concrete stream of two
fit arguments, a concrete fit function, pool counts 2 / 3, parallel mode. -/
theorem C1_dispatch_preserves_coords_witness :
    (true = false ∨ (3 : Nat) ≠ 0) ∧
      (multithreader
          (fun p : Coord × Sig => (p.1, p.2.sum))
          [((0, 0, 0), [1, 2]), ((0, 1, 0), [3])] (some 2)).map Prod.fst
        = ([(0, 0, 0), (0, 1, 0)] : List Coord) := by
  refine ⟨by decide, ?_⟩
  have h := C1_dispatch_preserves_coords (fun c s => s.sum)
    [((0, 0, 0), [1, 2]), ((0, 1, 0), [3])] (some 2) 3 true (Or.inr (by decide))
  exact h.1

/-- **C2** (counterexample).  The claim says every fit-model function,
including the mono-exponential one, returns its coordinate paired with a
zero-vector and never raises when the solver fails.  `FitModel.mono` has
no try/except around `curve_fit`: when the solver fails to converge the
exception propagates (`none`) and no `(coordinate, zero-vector)` pair is
returned. -/
theorem C2_mono_counterexample :
    FitModel.mono (fun _ => none) (0, 0, 0) [1, 2] = none := rfl

/-- **C2** (amended).  When the underlying solver fails, the NNLS-family
fit functions (`NNLS`, `NNLS_reg`, `NNLS_reg_CV`) return the voxel
coordinate paired with the zero-vector of length `basis.shape[1]` and do
not raise; the parametric fit functions (`mono`, `mono_T1`, `multi_exp`)
instead propagate the solver exception. -/
theorem C2_zero_vector_on_solver_failure
    (nnls : Mat → Sig → Nat → Option (List ℚ))
    (nnlsRegCV : Mat → Sig → ℚ → Option (List ℚ))
    (curve_fit : Sig → Option (List ℚ))
    (basis : Mat) (max_iter : Nat) (tol : ℚ) (idx : Coord) (s : Sig)
    (hn : nnls basis s max_iter = none)
    (hcv : nnlsRegCV basis s tol = none)
    (hcf : curve_fit s = none) :
    FitModel.NNLS nnls basis max_iter idx s
        = (idx, List.replicate (npShape1 basis) 0) ∧
      FitModel.NNLS_reg nnls basis max_iter idx s
        = (idx, List.replicate (npShape1 basis) 0) ∧
      FitModel.NNLS_reg_CV nnlsRegCV basis tol idx s
        = (idx, List.replicate (npShape1 basis) 0) ∧
      FitModel.mono curve_fit idx s = none ∧
      FitModel.mono_T1 curve_fit idx s = none ∧
      FitModel.multi_exp curve_fit idx s = none := by
  refine ⟨?_, ?_, ?_, ?_, ?_, ?_⟩ <;>
    simp [FitModel.NNLS, FitModel.NNLS_reg, FitModel.NNLS_reg_CV,
      FitModel.mono, FitModel.mono_T1, FitModel.multi_exp, hn, hcv, hcf]

/-- **C2** witness: the amended theorem at always-failing solvers, a
2-column basis, voxel `(0, 0, 0)`: the NNLS fit yields the zero-vector of
length 2. -/
theorem C2_zero_vector_on_solver_failure_witness :
    FitModel.NNLS (fun _ _ _ => none) [[1, 1], [1, 0]] 250 (0, 0, 0) [1, 2]
      = ((0, 0, 0), [0, 0]) := by
  have h := C2_zero_vector_on_solver_failure (fun _ _ _ => none)
    (fun _ _ _ => none) (fun _ => none) [[1, 1], [1, 0]] 250 (1 / 10000)
    (0, 0, 0) [1, 2] rfl rfl rfl
  exact h.1.trans (by decide)

/-- Taking first components of `(c, f c)` pairs gives back the list. -/
theorem map_fst_map_pair {α β : Type} (l : List α) (f : α → β) :
    (l.map (fun c => (c, f c))).map Prod.fst = l := by
  induction l with
  | nil => rfl
  | cons a t ih => simp [ih]

/-- The row-major coordinate enumeration has no duplicates. -/
theorem allCoords_nodup (X Y Z : Nat) : (allCoords X Y Z).Nodup :=
  List.Nodup.product (List.nodup_range X)
    (List.Nodup.product (List.nodup_range Y) (List.nodup_range Z))

/-- Membership in the row-major coordinate enumeration. -/
theorem mem_allCoords {X Y Z : Nat} {c : Coord} :
    c ∈ allCoords X Y Z ↔ c.1 < X ∧ c.2.1 < Y ∧ c.2.2 < Z := by
  obtain ⟨i, j, k⟩ := c
  simp [allCoords, List.mem_product, List.mem_range]

/-- `np.nonzero` yields no duplicate coordinates. -/
theorem npNonzero3_nodup (X Y Z : Nat) (v : Nat → Nat → Nat → Nat) :
    (npNonzero3 X Y Z v).Nodup :=
  (allCoords_nodup X Y Z).filter _

/-- `np.nonzero` yields exactly the in-range coordinates with a nonzero
mask value. -/
theorem mem_npNonzero3 {X Y Z : Nat} {v : Nat → Nat → Nat → Nat}
    {c : Coord} :
    c ∈ npNonzero3 X Y Z v ↔
      c.1 < X ∧ c.2.1 < Y ∧ c.2.2 < Z ∧ v c.1 c.2.1 c.2.2 ≠ 0 := by
  simp [npNonzero3, List.mem_filter, mem_allCoords, and_assoc]

/-- **C3** (counterexample).  The claim says `get_pixel_args` yields one
argument per nonzero voxel also for masks of shape `(X, Y, Z)`.  On the
3-D all-ones mask of shape `(1, 1, 1)` the call `np.squeeze(seg, axis=3)`
raises `AxisError` (axis 3 out of bounds for a 3-D array), so no argument
is yielded for its nonzero voxel `(0, 0, 0)`. -/
theorem C3_threeD_mask_counterexample :
    get_pixel_args (fun _ _ => 0) 2 c3Seg3d = none ∧
      c3Seg3d.val 0 0 0 ≠ 0 := by
  exact ⟨rfl, by decide⟩

/-- **C3** (amended).  For every grid and every mask of shape
`(X, Y, Z, 1)`, `get_pixel_args` yields exactly one `(coordinate,
grid[coordinate, :])` tuple per nonzero mask voxel, with no duplicate and
no dropped coordinates; a mask of shape `(X, Y, Z)` makes the axis-3
squeeze raise instead. -/
theorem C3_get_pixel_args_exact (img : Coord → Nat → ℚ) (B : Nat)
    (seg : SegArray) (X Y Z : Nat) (hdims : seg.dims = [X, Y, Z, 1]) :
    ∃ l, get_pixel_args img B seg = some l ∧
      l.map Prod.fst = npNonzero3 X Y Z seg.val ∧
      (l.map Prod.fst).Nodup ∧
      (∀ c : Coord, c ∈ l.map Prod.fst ↔
        (c.1 < X ∧ c.2.1 < Y ∧ c.2.2 < Z ∧ seg.val c.1 c.2.1 c.2.2 ≠ 0)) ∧
      (∀ p ∈ l, p.2 = (List.range B).map (img p.1)) := by
  have hmap : ((npNonzero3 X Y Z seg.val).map
      (fun c => (c, (List.range B).map (img c)))).map Prod.fst
      = npNonzero3 X Y Z seg.val := map_fst_map_pair _ _
  refine ⟨(npNonzero3 X Y Z seg.val).map
    (fun c => (c, (List.range B).map (img c))), ?_, hmap, ?_, ?_, ?_⟩
  · simp [get_pixel_args, npSqueezeAxis3, hdims]
  · rw [hmap]
    exact npNonzero3_nodup X Y Z seg.val
  · intro c
    rw [hmap]
    exact mem_npNonzero3
  · intro p hp
    rcases List.mem_map.1 hp with ⟨c, _, rfl⟩
    rfl

/-- **C3** witness: the amended theorem on a `(2, 1, 1, 1)` mask whose
first voxel is labelled 1, with a 2-point decay axis: the single yielded
coordinate list is `[(0, 0, 0)]`. -/
theorem C3_get_pixel_args_exact_witness :
    ∃ l, get_pixel_args (fun c b => (c.1 : ℚ) + b) 2
        ⟨[2, 1, 1, 1], fun i _ _ => if i = 0 then 1 else 0⟩ = some l ∧
      l.map Prod.fst = [(0, 0, 0)] := by
  obtain ⟨l, h1, h2, -, -, -⟩ := C3_get_pixel_args_exact
    (fun c b => (c.1 : ℚ) + b) 2
    ⟨[2, 1, 1, 1], fun i _ _ => if i = 0 then 1 else 0⟩ 2 1 1 rfl
  exact ⟨l, h1, h2.trans (by decide)⟩

/-- Summing after dividing each entry by `s` divides the sum by `s`. -/
theorem sum_map_div (l : List ℚ) (s : ℚ) :
    (l.map (fun f => f / s)).sum = l.sum / s := by
  induction l with
  | nil => simp
  | cons a t ih => simp [ih, add_div]

/-- A list of positive entries normalised by its sum sums to one. -/
theorem normalize_sum_one (l : List ℚ) (hl : l ≠ []) (hpos : ∀ f ∈ l, 0 < f) :
    (l.map (fun f => f / l.sum)).sum = 1 := by
  have hs : 0 < l.sum := List.sum_pos l hpos hl
  rw [sum_map_div]
  exact div_self (ne_of_gt hs)

/-- The plateau scan never moves left. -/
theorem scanPlateau_ge (x : List ℚ) (v : ℚ) :
    ∀ fuel j, j ≤ scanPlateau x v fuel j := by
  intro fuel
  induction fuel with
  | zero => exact fun j => le_rfl
  | succ n ih =>
    intro j
    rw [scanPlateau]
    split
    · exact (Nat.le_succ j).trans (ih (j + 1))
    · exact le_rfl

/-- Every sample passed over by the plateau scan equals the plateau
value. -/
theorem scanPlateau_plateau (x : List ℚ) (v : ℚ) :
    ∀ fuel j t, j ≤ t → t < scanPlateau x v fuel j → getQ x t = v := by
  intro fuel
  induction fuel with
  | zero =>
    intro j t hjt hlt
    rw [scanPlateau] at hlt
    omega
  | succ n ih =>
    intro j t hjt hlt
    rw [scanPlateau] at hlt
    by_cases h : j < x.length - 1 ∧ getQ x j = v
    · rw [if_pos h] at hlt
      rcases Nat.eq_or_lt_of_le hjt with rfl | hlt2
      · exact h.2
      · exact ih (j + 1) t hlt2 hlt
    · rw [if_neg h] at hlt
      omega

/-- On a non-negative spectrum every reported local maximum has a
strictly positive sample value (it strictly exceeds its non-negative
left neighbour, and the plateau carries that value to the reported
midpoint). -/
theorem localMaximaAux_pos (x : List ℚ) (hnn : ∀ w ∈ x, 0 ≤ w) :
    ∀ fuel i, 1 ≤ i → ∀ m ∈ localMaximaAux x fuel i, 0 < getQ x m := by
  intro fuel
  induction fuel with
  | zero =>
    intro i _ m hm
    rw [localMaximaAux] at hm
    exact absurd hm (List.not_mem_nil m)
  | succ n ih =>
    intro i hi m hm
    rw [localMaximaAux] at hm
    by_cases h1 : i < x.length - 1
    · rw [if_pos h1] at hm
      by_cases h2 : getQ x (i - 1) < getQ x i
      · rw [if_pos h2] at hm
        by_cases h3 :
            getQ x (scanPlateau x (getQ x i) x.length (i + 1)) < getQ x i
        · rw [if_pos h3] at hm
          rcases List.mem_cons.1 hm with rfl | hm'
          · have hge : i + 1 ≤ scanPlateau x (getQ x i) x.length (i + 1) :=
              scanPlateau_ge x (getQ x i) x.length (i + 1)
            have hm_ge :
                i ≤ (i + (scanPlateau x (getQ x i) x.length (i + 1) - 1)) / 2 := by
              omega
            have hval :
                getQ x ((i + (scanPlateau x (getQ x i) x.length (i + 1) - 1)) / 2)
                  = getQ x i := by
              rcases Nat.eq_or_lt_of_le hm_ge with heq | hlt
              · rw [← heq]
              · exact scanPlateau_plateau x (getQ x i) x.length (i + 1) _ hlt
                  (by omega)
            have hlen : i - 1 < x.length := by omega
            have hmem : getQ x (i - 1) ∈ x := by
              have hg : x.getD (i - 1) 0 = x[i - 1] :=
                List.getD_eq_getElem x 0 hlen
              rw [getQ, hg]
              exact List.getElem_mem hlen
            have h0 : 0 ≤ getQ x (i - 1) := hnn _ hmem
            rw [hval]
            exact lt_of_le_of_lt h0 h2
          · exact ih _ (by omega) m hm'
        · rw [if_neg h3] at hm
          exact ih _ (by omega) m hm
      · rw [if_neg h2] at hm
        exact ih _ (by omega) m hm
    · rw [if_neg h1] at hm
      exact absurd hm (List.not_mem_nil m)

/-- Peaks returned by `find_peaks` satisfy the height threshold. -/
theorem find_peaks_height {x : List ℚ} {h : ℚ} {m : Nat}
    (hm : m ∈ find_peaks x h) : h ≤ getQ x m := by
  have := (List.mem_filter.1 hm).2
  simpa using this

/-- On a non-negative spectrum every peak has positive height. -/
theorem find_peaks_pos {x : List ℚ} (hnn : ∀ w ∈ x, 0 ≤ w) {m : Nat}
    (hm : m ∈ find_peaks x 0) : 0 < getQ x m :=
  localMaximaAux_pos x hnn x.length 1 le_rfl m (List.mem_filter.1 hm).1

/-- **C4** (claim).  For every non-negative fitted weight vector, the
fractions produced by `NNLSParams.eval_fitting_results` (peak heights at
threshold 0.1, normalised) and by `NNLSregParams.eval_fitting_results`
(Gaussian peak areas from positive FWHMs, normalised) sum to exactly 1
when at least one peak is detected and to 0 when none is. -/
theorem C4_fractions_normalised (spectrum fwhms : List ℚ) (gaussConst : ℚ)
    (hnn : ∀ w ∈ spectrum, 0 ≤ w) (hg : 0 < gaussConst)
    (hlen : fwhms.length = (find_peaks spectrum 0).length)
    (hw : ∀ w ∈ fwhms, 0 < w) :
    (find_peaks spectrum (1 / 10) ≠ [] →
        (NNLSParams.eval_f spectrum).sum = 1) ∧
      (find_peaks spectrum (1 / 10) = [] →
        (NNLSParams.eval_f spectrum).sum = 0) ∧
      (find_peaks spectrum 0 ≠ [] →
        (NNLSregParams.eval_f gaussConst spectrum fwhms).sum = 1) ∧
      (find_peaks spectrum 0 = [] →
        (NNLSregParams.eval_f gaussConst spectrum fwhms).sum = 0) := by
  refine ⟨?_, ?_, ?_, ?_⟩
  · intro hne
    show (((find_peaks spectrum (1 / 10)).map (getQ spectrum)).map
      (fun f => f / ((find_peaks spectrum (1 / 10)).map (getQ spectrum)).sum)).sum = 1
    apply normalize_sum_one
    · simpa using hne
    · intro f hf
      rcases List.mem_map.1 hf with ⟨m, hm, rfl⟩
      have h10 := find_peaks_height hm
      linarith
  · intro hemp
    show (((find_peaks spectrum (1 / 10)).map (getQ spectrum)).map
      (fun f => f / ((find_peaks spectrum (1 / 10)).map (getQ spectrum)).sum)).sum = 0
    rw [hemp]
    rfl
  · intro hne
    show (((((find_peaks spectrum 0).map (getQ spectrum)).zip fwhms).map
        (fun pw => pw.1 * pw.2 * gaussConst)).map
      (fun f => f / (((((find_peaks spectrum 0).map (getQ spectrum)).zip
        fwhms).map (fun pw => pw.1 * pw.2 * gaussConst))).sum)).sum = 1
    apply normalize_sum_one
    · have hzl : ((((find_peaks spectrum 0).map (getQ spectrum)).zip
          fwhms)).length = (find_peaks spectrum 0).length := by
        simp [hlen]
      intro hcon
      have : (find_peaks spectrum 0).length = 0 := by
        rw [← hzl]
        simpa using congrArg List.length hcon
      exact hne (List.length_eq_zero.1 this)
    · intro f hf
      rcases List.mem_map.1 hf with ⟨⟨p, w⟩, hpw, rfl⟩
      obtain ⟨hp, hw'⟩ := List.of_mem_zip hpw
      rcases List.mem_map.1 hp with ⟨m, hm, rfl⟩
      exact mul_pos (mul_pos (find_peaks_pos hnn hm) (hw w hw')) hg
  · intro hemp
    show (((((find_peaks spectrum 0).map (getQ spectrum)).zip fwhms).map
        (fun pw => pw.1 * pw.2 * gaussConst)).map
      (fun f => f / (((((find_peaks spectrum 0).map (getQ spectrum)).zip
        fwhms).map (fun pw => pw.1 * pw.2 * gaussConst))).sum)).sum = 0
    rw [hemp]
    rfl

/-- **C4** witness: the spectrum `[0, 1, 0]` has exactly one peak (index
1); with FWHM list `[1]` and Gaussian constant 1 both evaluators produce
fractions summing to 1. -/
theorem C4_fractions_normalised_witness :
    find_peaks [0, 1, 0] (1 / 10) ≠ [] ∧
      (NNLSParams.eval_f [0, 1, 0]).sum = 1 ∧
      (NNLSregParams.eval_f 1 [0, 1, 0] [1]).sum = 1 := by
  have h := C4_fractions_normalised [0, 1, 0] [1] 1 (by decide) (by decide)
    (by decide) (by decide)
  exact ⟨by decide, h.1 (by decide), h.2.2.1 (by decide)⟩

/-- **C5** (code bug, evaluated at the failing input).  Take one peak per
regime — `d = [0.001, 0.01, 0.1]` with fractions `f = [1/2, 3/10, 1/5]`
(summing to 1).  The claim (and the spec's test property) requires the
per-regime fractions `[1/2, 3/10, 1/5]`.  The code instead produces
`[1/2, 1/5, 3/10]`: after the first regime consumes its peak,
`np.setdiff1d` **sorts** the remaining fraction array independently of
the coefficient array, so the d-to-f pairing is destroyed and the
fractions of regimes 2 and 3 leak into each other. -/
theorem C5_auc_regime_leakage :
    apply_AUC_to_results [1 / 1000, 1 / 100, 1 / 10] [1 / 2, 3 / 10, 1 / 5]
        = ([1 / 1000, 1 / 100, 1 / 10], [1 / 2, 1 / 5, 3 / 10]) ∧
      ([1 / 2, 1 / 5, 3 / 10] : List ℚ) ≠ [1 / 2, 3 / 10, 1 / 5] := by
  constructor
  · decide
  · decide

/-- Sums split over a pointwise sum of two functions. -/
theorem sum_map_add {α : Type} (l : List α) (f g : α → ℚ) :
    (l.map (fun x => f x + g x)).sum = (l.map f).sum + (l.map g).sum := by
  induction l with
  | nil => simp
  | cons a t ih => simp [ih]; ring

/-- Scaling every entry scales the sum. -/
theorem sum_map_mul_right {α : Type} (l : List α) (f : α → ℚ) (c : ℚ) :
    (l.map (fun x => f x * c)).sum = (l.map f).sum * c := by
  induction l with
  | nil => simp
  | cons a t ih => simp [ih]; ring

/-- Summing an indicator of a single integer position over `range n`. -/
theorem sum_range_ite (v : ℚ) :
    ∀ (n : Nat) (t : ℤ),
      ((List.range n).map
          (fun (j : Nat) => if (j : ℤ) = t then v else 0)).sum
        = if 0 ≤ t ∧ t < (n : ℤ) then v else 0 := by
  intro n
  induction n with
  | zero =>
    intro t
    simp only [List.range_zero, List.map_nil, List.sum_nil]
    rw [if_neg (by omega : ¬(0 ≤ t ∧ t < ((0 : Nat) : ℤ)))]
  | succ m ih =>
    intro t
    rw [List.range_succ]
    rw [List.map_append, List.sum_append, ih t]
    simp only [List.map_cons, List.map_nil, List.sum_cons, List.sum_nil]
    split_ifs with h1 h2 h3 h2 h3 <;>
      first | ring1 | (exfalso; omega)

/-- Every interior row of the order-2 (discrete Laplacian) penalty block
sums to zero. -/
theorem penalty2_interior_row_sum_zero (n i : Nat) (mu : ℚ)
    (h1 : 1 ≤ i) (h2 : i + 1 < n) :
    (matRow (matScale (diagsMat [(-1, 1), (0, -2), (1, 1)] n) mu) i).sum
      = 0 := by
  have hin : i < n := by omega
  have hget : ∀ (f : Nat → List ℚ), ((List.range n).map f).getD i [] = f i := by
    intro f
    rw [List.getD_eq_getElem _ _ (by simpa using hin)]
    simp
  have hrow : matRow (matScale (diagsMat [(-1, 1), (0, -2), (1, 1)] n) mu) i
      = ((List.range n).map
          (fun j => diagsEntry [(-1, 1), (0, -2), (1, 1)] i j)).map
        (fun x => x * mu) := by
    rw [matRow, matScale, diagsMat, List.map_map]
    exact hget _
  rw [hrow, List.map_map]
  have hsum :
      ((List.range n).map ((fun x => x * mu) ∘
        fun j => diagsEntry [(-1, 1), (0, -2), (1, 1)] i j)).sum
      = ((List.range n).map
          (fun j => diagsEntry [(-1, 1), (0, -2), (1, 1)] i j)).sum * mu := by
    exact sum_map_mul_right _ _ mu
  rw [hsum]
  have hentry : ∀ j : Nat, diagsEntry [(-1, 1), (0, -2), (1, 1)] i j
      = (if (j : ℤ) = (i : ℤ) + -1 then (1 : ℚ) else 0)
        + ((if (j : ℤ) = (i : ℤ) + 0 then (-2 : ℚ) else 0)
          + ((if (j : ℤ) = (i : ℤ) + 1 then (1 : ℚ) else 0) + 0)) := by
    intro j
    rfl
  have hz :
      ((List.range n).map
        (fun (j : Nat) => diagsEntry [(-1, 1), (0, -2), (1, 1)] i j)).sum
        = 0 := by
    calc ((List.range n).map
        (fun (j : Nat) => diagsEntry [(-1, 1), (0, -2), (1, 1)] i j)).sum
        = ((List.range n).map (fun (j : Nat) =>
            (if (j : ℤ) = (i : ℤ) + -1 then (1 : ℚ) else 0)
              + ((if (j : ℤ) = (i : ℤ) + 0 then (-2 : ℚ) else 0)
                + ((if (j : ℤ) = (i : ℤ) + 1 then (1 : ℚ) else 0) + 0)))).sum := by
          exact congrArg List.sum (List.map_congr_left (fun j _ => hentry j))
      _ = 0 := by
          rw [sum_map_add (List.range n)
            (fun (j : Nat) => if (j : ℤ) = (i : ℤ) + -1 then (1 : ℚ) else 0)
            (fun (j : Nat) => (if (j : ℤ) = (i : ℤ) + 0 then (-2 : ℚ) else 0)
              + ((if (j : ℤ) = (i : ℤ) + 1 then (1 : ℚ) else 0) + 0))]
          rw [sum_map_add (List.range n)
            (fun (j : Nat) => if (j : ℤ) = (i : ℤ) + 0 then (-2 : ℚ) else 0)
            (fun (j : Nat) =>
              (if (j : ℤ) = (i : ℤ) + 1 then (1 : ℚ) else 0) + 0)]
          rw [sum_map_add (List.range n)
            (fun (j : Nat) => if (j : ℤ) = (i : ℤ) + 1 then (1 : ℚ) else 0)
            (fun _ => 0)]
          rw [sum_range_ite, sum_range_ite, sum_range_ite]
          rw [if_pos (by omega : 0 ≤ (i : ℤ) + -1 ∧ (i : ℤ) + -1 < (n : ℤ))]
          rw [if_pos (by omega : 0 ≤ (i : ℤ) + 0 ∧ (i : ℤ) + 0 < (n : ℤ))]
          rw [if_pos (by omega : 0 ≤ (i : ℤ) + 1 ∧ (i : ℤ) + 1 < (n : ℤ))]
          simp
          norm_num
  rw [hz, zero_mul]

/-- **C6** (code bug, evaluated at the failing input).  In
`src/src/fit/parameters.py`, `NNLSregParams.get_basis` has no branch for
`reg_order == 0` — the constructor's own default — and raises
(`NotImplemented`), although the claim, the spec, the older
`src/fit.py::NNLSregParams.get_basis` (which appends `identity * mu`)
and the repository's `test_nnls_pixel_sequential_reg_0` all expect order
0 to work.  Orders 1-3 produce the claimed banded difference blocks
scaled by `mu`, and every interior row of the order-2 block sums to
zero. -/
theorem C6_reg_order_zero_missing :
    NNLSregParams.penalty_params 0 250 (1 / 50) = none ∧
      NNLSregParams.penalty_fitpy 0 4 (1 / 50)
        = some [[1 / 50, 0, 0, 0], [0, 1 / 50, 0, 0],
                [0, 0, 1 / 50, 0], [0, 0, 0, 1 / 50]] ∧
      NNLSregParams.penalty_params 1 4 (1 / 50)
        = some [[-1 / 50, 1 / 50, 0, 0], [0, -1 / 50, 1 / 50, 0],
                [0, 0, -1 / 50, 1 / 50], [0, 0, 0, -1 / 50]] ∧
      NNLSregParams.penalty_params 2 4 (1 / 50)
        = some [[-2 / 50, 1 / 50, 0, 0], [1 / 50, -2 / 50, 1 / 50, 0],
                [0, 1 / 50, -2 / 50, 1 / 50], [0, 0, 1 / 50, -2 / 50]] ∧
      NNLSregParams.penalty_params 3 4 (1 / 50)
        = some [[-6 / 50, 2 / 50, 1 / 50, 0], [2 / 50, -6 / 50, 2 / 50, 1 / 50],
                [1 / 50, 2 / 50, -6 / 50, 2 / 50], [0, 1 / 50, 2 / 50, -6 / 50]] ∧
      (∀ (n i : Nat) (mu : ℚ), 1 ≤ i → i + 1 < n →
        ∀ m, NNLSregParams.penalty_params 2 n mu = some m →
          (matRow m i).sum = 0) := by
  refine ⟨by decide, by decide, by decide, by decide, by decide, ?_⟩
  intro n i mu hi hn m hm
  have : m = matScale (diagsMat [(-1, 1), (0, -2), (1, 1)] n) mu := by
    simpa [NNLSregParams.penalty_params] using hm.symm
  rw [this]
  exact penalty2_interior_row_sum_zero n i mu hi hn

/-- **C6** witness: the interior-row conjunct applied at `n = 4`,
`i = 1`, `mu = 1/50` on the concrete order-2 penalty block. -/
theorem C6_reg_order_zero_missing_witness :
    (1 ≤ 1 ∧ 1 + 1 < 4) ∧
      (matRow (matScale (diagsMat [(-1, 1), (0, -2), (1, 1)] 4) (1 / 50)) 1).sum
        = 0 := by
  refine ⟨by decide, ?_⟩
  exact C6_reg_order_zero_missing.2.2.2.2.2 4 1 (1 / 50) (by decide) (by decide)
    (matScale (diagsMat [(-1, 1), (0, -2), (1, 1)] 4) (1 / 50))
    (by simp [NNLSregParams.penalty_params])

/-- **C7** (counterexample).  The claim says an out-of-range
regularization order is raised at Parameters construction or load time.
Constructing `NNLSregParams(reg_order=5)` succeeds and stores 5, and
loading a config with `reg_order = 5` succeeds likewise; only the later
`get_basis` call (made when the fit function is built, i.e. inside the
fitting path) raises. -/
theorem C7_no_construction_time_check :
    (NNLSregParams.mk_init 5 (1 / 50)).reg_order = 5 ∧
      (NNLSregParams.load_set_reg_order 5).reg_order = 5 ∧
      (NNLSregParams.mk_init 5 (1 / 50)).get_basis_penalty = none := by
  exact ⟨rfl, rfl, rfl⟩

/-- **C7** (amended).  Construction and configuration load accept every
regularization order without validation; the error surfaces exactly when
`get_basis` runs (at fit-function construction), and exactly for orders
outside `{1, 2, 3}` — the claimed order 0 included. -/
theorem C7_error_deferred_to_get_basis (o : ℤ) (mu : ℚ) :
    (NNLSregParams.mk_init o mu).reg_order = o ∧
      (NNLSregParams.load_set_reg_order o).reg_order = o ∧
      ((NNLSregParams.mk_init o mu).get_basis_penalty = none ↔
        (o ≠ 1 ∧ o ≠ 2 ∧ o ≠ 3)) := by
  refine ⟨rfl, rfl, ?_⟩
  simp only [NNLSregParamsState.get_basis_penalty, NNLSregParams.mk_init,
    NNLSregParams.penalty_params]
  split_ifs with hb1 hb2 hb3 <;> simp_all

/-- **C8** (counterexample).  The claim says that loading a
configuration whose `Class` tag does not name a known parameter type
raises a hard error that aborts immediately and never returns without a
usable constructed instance.  `Parameters.load_from_json` violates this
on three concrete tags: `"Bogus"` (absent from `globals()`) prints
`"Error: Wrong Class Header!"` and plain-`return`s `None`; `"Results"`
silently constructs and returns a `Results` object — not a parameter
instance; and `"np"` fails only with an accidental `TypeError` from
calling a module, not a configuration-error abort. -/
theorem C8_unknown_tag_counterexample :
    Parameters.load_from_json_outcome parametersGlobals
        [("Class", PyValue.str "Bogus")] = LoadOutcome.returnedNone ∧
      Parameters.load_from_json_outcome parametersGlobals
        [("Class", PyValue.str "Results")] = LoadOutcome.okOther "Results" ∧
      Parameters.load_from_json_outcome parametersGlobals
        [("Class", PyValue.str "np")] = LoadOutcome.raised "TypeError" := by
  refine ⟨by decide, by decide, by decide⟩

/-- **C8** (amended).  Only the `FitData` loading path is a hard
configuration error: it raises `ValueError` for a missing `Class` tag
and for any tag that is not one of the known parameter classes.
`Parameters.load_from_json` raises `KeyError` for a missing tag, but for
a tag that does not name a parameter class it never performs a
configuration-error abort: a tag absent from the module `globals()`
prints an error and returns `None`; a tag naming another zero-arg
callable global (e.g. `Results`, `Nii`, `Path`) silently constructs and
returns that unrelated object; a tag naming a module, an
argument-requiring function or the abstract `Params` dies with an
accidental `TypeError`.  In no case does it fall back to a default
`Parameters` object. -/
theorem C8_load_error_handling (d : ConfigDict) (name : String) :
    (name ∉ knownParamClasses →
      FitData.get_params_class knownParamClasses name
        = LoadOutcome.raised "Error: Invalid Class identifier!") ∧
      (lookupKey d "Class" = none →
        FitData.get_model knownParamClasses d
          = LoadOutcome.raised "Error: Missing Class identifier!") ∧
      (lookupKey d "Class" = none →
        Parameters.load_from_json_outcome parametersGlobals d
          = LoadOutcome.raised "KeyError") ∧
      (lookupKey d "Class" = some (PyValue.str name) →
        (lookupGlobal parametersGlobals name = none →
          Parameters.load_from_json_outcome parametersGlobals d
            = LoadOutcome.returnedNone) ∧
        (lookupGlobal parametersGlobals name
            = some GlobalsEntry.otherCallable →
          Parameters.load_from_json_outcome parametersGlobals d
            = LoadOutcome.okOther name) ∧
        (lookupGlobal parametersGlobals name
            = some GlobalsEntry.notCallableZeroArg →
          Parameters.load_from_json_outcome parametersGlobals d
            = LoadOutcome.raised "TypeError") ∧
        (name ∉ knownParamClasses →
          FitData.get_model knownParamClasses d
            = LoadOutcome.raised "Error: Invalid Class identifier!")) := by
  refine ⟨?_, ?_, ?_, ?_⟩
  · intro h
    simp [FitData.get_params_class, h]
  · intro h
    simp [FitData.get_model, h]
  · intro h
    simp [Parameters.load_from_json_outcome, h]
  · intro h
    refine ⟨?_, ?_, ?_, ?_⟩
    · intro hg
      simp [Parameters.load_from_json_outcome, h, hg]
    · intro hg
      simp [Parameters.load_from_json_outcome, h, hg]
    · intro hg
      simp [Parameters.load_from_json_outcome, h, hg]
    · intro hname
      simp [FitData.get_model, h, FitData.get_params_class, hname]

/-- **C8** witness: the amended theorem at the concrete one-entry config
`{"Class": "Bogus"}`: the tag is absent from the module globals, so the
`Parameters` loader returns `None` while the `FitData` loader raises. -/
theorem C8_load_error_handling_witness :
    (lookupKey [("Class", PyValue.str "Bogus")] "Class"
        = some (PyValue.str "Bogus") ∧
      lookupGlobal parametersGlobals "Bogus" = none ∧
      "Bogus" ∉ knownParamClasses) ∧
      (Parameters.load_from_json_outcome parametersGlobals
          [("Class", PyValue.str "Bogus")] = LoadOutcome.returnedNone ∧
        FitData.get_model knownParamClasses [("Class", PyValue.str "Bogus")]
          = LoadOutcome.raised "Error: Invalid Class identifier!") := by
  refine ⟨⟨by decide, by decide, by decide⟩, ?_⟩
  have h := (C8_load_error_handling [("Class", PyValue.str "Bogus")]
    "Bogus").2.2.2 (by decide)
  exact ⟨h.1 (by decide), h.2.2.2 (by decide)⟩

/-- **C9** (counterexample).  The claim says the save/load round trip
reproduces all attributes including the boundaries.  For an instance
whose `n_bins` boundary is 300, `save_to_json` skips the `boundaries`
attribute entirely (`if attr == "boundaries": continue`), so the loaded
instance carries the fresh default `n_bins = 250` — the round trip does
not reproduce the instance. -/
theorem C9_roundtrip_counterexample :
    Parameters.load_from_saved (Parameters.save_to_json c9Params)
        ≠ some c9Params ∧
      (Parameters.load_from_saved (Parameters.save_to_json c9Params)).map
          (fun q => q.boundaries.n_bins) = some 250 ∧
      c9Params.boundaries.n_bins = 300 := by
  refine ⟨by decide, by decide, by decide⟩

/-- **C9** (amended).  For every base `Parameters` instance, saving and
re-loading reproduces `b_values`, `max_iter`, `n_pools` and `fit_area`
exactly, but resets `boundaries` to the class defaults, because
`save_to_json` explicitly skips the `boundaries` attribute. -/
theorem C9_roundtrip_resets_boundaries (p : ParamsBase) :
    Parameters.load_from_saved (Parameters.save_to_json p)
      = some { p with boundaries := defaultBoundaries } := by
  simp [Parameters.load_from_saved, Parameters.save_to_json,
    Parameters.mk_default, knownParamClasses]

/-- **C10** (claim).  For every IVIM result vector of the layout length
`2 n` (n diffusion coefficients, n-1 fractions, S0), the assembled
fraction vector has length `n`, sums exactly to 1, its last entry is
1 minus the sum of the explicit fractions, and the all-zero raw vector
of a failed voxel yields `(0, ..., 0, 1)`. -/
theorem C10_ivim_fractions (n : Nat) (raw : List ℚ) (hn : 1 ≤ n)
    (hlen : raw.length = 2 * n) :
    (IVIMParams.eval_f n raw).length = n ∧
      (IVIMParams.eval_f n raw).sum = 1 ∧
      (IVIMParams.eval_f n raw).getLast?
        = some (1 - ((raw.drop n).dropLast).sum) ∧
      (raw = List.replicate (2 * n) 0 →
        IVIMParams.eval_f n raw = List.replicate (n - 1) 0 ++ [1]) := by
  refine ⟨?_, ?_, ?_, ?_⟩
  · simp only [IVIMParams.eval_f, List.length_append, List.length_dropLast,
      List.length_drop, hlen, List.length_cons, List.length_nil]
    omega
  · simp only [IVIMParams.eval_f, List.sum_append, List.sum_cons,
      List.sum_nil]
    ring
  · exact List.getLast?_concat _
  · intro hz
    subst hz
    have hdrop : (List.replicate (2 * n) (0 : ℚ)).drop n
        = List.replicate n 0 := by
      rw [List.drop_replicate]
      congr 1
      omega
    rw [IVIMParams.eval_f, hdrop]
    have hdl : (List.replicate n (0 : ℚ)).dropLast
        = List.replicate (n - 1) 0 := List.dropLast_replicate n 0
    rw [hdl]
    simp

/-- **C10** witness: the claim theorem at `n = 2` on the all-zero raw
vector of a failed bi-exponential voxel: the fraction vector is
`[0, 1]`. -/
theorem C10_ivim_fractions_witness :
    (1 ≤ 2 ∧ ([0, 0, 0, 0] : List ℚ).length = 2 * 2) ∧
      IVIMParams.eval_f 2 [0, 0, 0, 0] = [0, 1] := by
  refine ⟨by decide, ?_⟩
  have h := (C10_ivim_fractions 2 [0, 0, 0, 0] (by decide) (by decide)).2.2.2
    (by decide)
  exact h.trans (by decide)

end Pyneapple
